import Mathlib

/-!
Shallow embedding of `src/useIdleTimer.js` (react-idle-timer).

The hook keeps its mutable session state in React refs; we gather those refs
into one record `IdleState` and translate each closure of the hook into a pure
function over that record.  Wall-clock reads `+new Date()` become an explicit
`now : Int` parameter (JS millisecond timestamps).  `setTimeout(f, d)` at time
`now` is modelled by storing the absolute fire time `now + d` in `tId`;
`clearTimeout` / an expired timer is `tId := none`.  The external callbacks
(`onIdle`, `onActive`, `onAction`) only observe state, they never change it,
so they do not appear in the state-transition functions.  `IS_BROWSER` is
taken to be `true` (events can be bound).
-/

namespace IdleTimer

/-- JS `null` coerced to a number in arithmetic (`number - null = number - 0`):
`lastActive.current`, `lastIdle.current` and `remaining.current` start as
`null` and are read arithmetically in several places. -/
def jsNum : Option Int → Int
  | none => 0
  | some v => v

/-- JS truthiness of a nullable number: `if (remaining.current)` (line 91)
passes only when the value is neither `null` nor `0`. -/
def jsTruthy : Option Int → Bool
  | none => false
  | some v => v != 0

/-- The configuration options of `useIdleTimer` that the state machine reads
(lines 22-36), with the default values of the source.  `element`, `events`,
`capture`, `passive` and the callbacks only affect the DOM plumbing. -/
structure IdleConfig where
  timeout : Int := 1000 * 60 * 20
  debounce : Int := 0
  throttle : Int := 0
  eventsThrottle : Int := 200
  startOnMount : Bool := true
  stopOnIdle : Bool := false
deriving Repr, DecidableEq

/-- The mutable refs of the hook (lines 37-48).  `tId` holds the absolute
fire time of the armed deadline, or `none` when no deadline is pending.
`_timeout.current` is represented by `cfg.timeout` (no live reconfiguration
is modelled). -/
structure IdleState where
  eventsBound : Bool
  idle : Bool
  oldDate : Int
  remaining : Option Int
  pageX : Option Int
  pageY : Option Int
  tId : Option Int
  lastActive : Option Int
  lastIdle : Option Int
  idleTime : Int
deriving Repr, DecidableEq

/-- Initial ref values (lines 37-48): `idle` starts `true`, `oldDate` is the
construction instant, everything else is `null` / `0` / unbound. -/
def initialState (now : Int) : IdleState :=
  { eventsBound := false
    idle := true
    oldDate := now
    remaining := none
    pageX := none
    pageY := none
    tId := none
    lastActive := none
    lastIdle := none
    idleTime := 0 }

/-- A delivered DOM event as the handler reads it: its `type` string and its
`pageX` / `pageY` coordinates (`none` models `undefined`, as on non-mouse
events). -/
structure JsEvent where
  type : String
  pageX : Option Int := none
  pageY : Option Int := none
deriving Repr, DecidableEq

/-- Function `_bindEvents` (lines 147-162): with `IS_BROWSER`, subscribes once,
guarded by `eventsBound`. -/
def bindEvents (s : IdleState) : IdleState :=
  if s.eventsBound then s else { s with eventsBound := true }

/-- Function `_unbindEvents` (lines 168-182): removes the listeners when bound (or
when forced) and clears the guard. -/
def unbindEvents (force : Bool) (s : IdleState) : IdleState :=
  if s.eventsBound || force then { s with eventsBound := false } else s

/-- Accessor `getRemainingTime` (lines 189-198): the frozen `remaining` when paused,
else `timeout - (now - lastActive)`, each floored at `0` on the way out. -/
def getRemainingTime (now : Int) (cfg : IdleConfig) (s : IdleState) : Int :=
  match s.remaining with
  | some r => if r < 0 then 0 else r
  | none =>
      let timeLeft := cfg.timeout - (now - jsNum s.lastActive)
      if timeLeft < 0 then 0 else timeLeft

/-- Accessor `getElapsedTime` (line 205). -/
def getElapsedTime (now : Int) (s : IdleState) : Int := now - s.oldDate

/-- Accessor `getLastIdleTime` (line 212). -/
def getLastIdleTime (s : IdleState) : Option Int := s.lastIdle

/-- Accessor `getTotalIdleTime` (lines 219-225). -/
def getTotalIdleTime (now : Int) (s : IdleState) : Int :=
  if s.idle then (now - jsNum s.lastIdle) + s.idleTime else s.idleTime

/-- Accessor `getLastActiveTime` (line 232). -/
def getLastActiveTime (s : IdleState) : Option Int := s.lastActive

/-- Accessor `isIdle` (line 246). -/
def isIdle (s : IdleState) : Bool := s.idle

/-- Function `_toggleIdleState` (lines 60-80): flip `idle`; on entering idle, with
`stopOnIdle` cancel the deadline and unbind, then back-date
`lastIdle := now - timeout` and emit `onIdle`; on leaving idle (only when not
`stopOnIdle`) accrue `idleTime`, rebind and emit `onActive`. -/
def toggleIdleState (now : Int) (cfg : IdleConfig) (s : IdleState) : IdleState :=
  let nextIdle := !s.idle
  let s1 := { s with idle := nextIdle }
  if nextIdle then
    let s2 := if cfg.stopOnIdle then unbindEvents false { s1 with tId := none } else s1
    { s2 with lastIdle := some (now - cfg.timeout) }
  else
    if !cfg.stopOnIdle then
      bindEvents { s1 with idleTime := s1.idleTime + (now - jsNum s1.lastIdle) }
    else s1

/-- Line 96 of the source reads `e.pageX === pageX && e.pageY === pageY`,
comparing the coordinate of the event (a number or `undefined`) with the *ref
object* `pageX` itself rather than with `pageX.current`.  Strict equality
between a number (or `undefined`) and the ref object is always `false`, so
this guard never discards an event. -/
def sameCoordsGuard (_e : JsEvent) (_s : IdleState) : Bool := false

/-- Function `_handleEvent` (lines 86-141).  `emitOnAction` fires first but does not
touch the state.  A JS-truthy `remaining` returns early (line 91); the
mousemove filters may return early (lines 94-109); otherwise the pending
deadline is cleared, the idle flag may be toggled, `lastActive` / pointer are
stored and a fresh deadline is armed unless idle with `stopOnIdle`. -/
def handleEvent (now : Int) (cfg : IdleConfig) (e : JsEvent) (s : IdleState) : IdleState :=
  if jsTruthy s.remaining then s
  else if e.type == "mousemove" &&
      (sameCoordsGuard e s ||
       (e.pageX == none && e.pageY == none) ||
       decide (getElapsedTime now s < 200)) then s
  else
    let s1 := { s with tId := none }
    let elapsedSinceLastActive := now - jsNum (getLastActiveTime s1)
    let s2 :=
      if (s1.idle && !cfg.stopOnIdle) ||
         (!s1.idle && decide (elapsedSinceLastActive > cfg.timeout)) then
        toggleIdleState now cfg s1
      else s1
    let s3 := { s2 with lastActive := some now, pageX := e.pageX, pageY := e.pageY }
    if s3.idle then
      if cfg.stopOnIdle then s3 else { s3 with tId := some (now + cfg.timeout) }
    else { s3 with tId := some (now + cfg.timeout) }

/-- Operation `reset` (lines 252-268): cancel the deadline, bind events, go active,
restart the session clock, clear the paused snapshot, arm a full deadline. -/
def reset (now : Int) (cfg : IdleConfig) (s : IdleState) : IdleState :=
  let s1 := bindEvents { s with tId := none }
  { s1 with idle := false, oldDate := now, lastActive := some now,
            remaining := none, tId := some (now + cfg.timeout) }

/-- Operation `pause` (lines 274-287): no-op when `remaining` is already non-null;
otherwise unbind, cancel the deadline and freeze `getRemainingTime()` into
`remaining`. -/
def pause (now : Int) (cfg : IdleConfig) (s : IdleState) : IdleState :=
  if s.remaining != none then s
  else
    let s1 := { (unbindEvents false s) with tId := none }
    { s1 with remaining := some (getRemainingTime now cfg s1) }

/-- Operation `resume` (lines 293-309): no-op when `remaining` is null; otherwise bind
events and, only when not idle, arm a deadline for the frozen remainder,
clear it and stamp `lastActive := now`. -/
def resume (now : Int) (_cfg : IdleConfig) (s : IdleState) : IdleState :=
  if s.remaining == none then s
  else
    let s1 := bindEvents s
    if !s1.idle then
      { s1 with tId := some (now + jsNum s1.remaining), remaining := none,
                lastActive := some now }
    else s1

/-- The armed deadline elapses at time `now`: the scheduled callback runs
`_toggleIdleState` (line 136/139/267/304 arm it) with no event argument, and
the handle is no longer pending. -/
def fireDeadline (now : Int) (cfg : IdleConfig) (s : IdleState) : IdleState :=
  toggleIdleState now cfg { s with tId := none }

/-- The mount effect of `useIdleTimer` (lines 314-336): raise the
configuration error when both `debounce` and `throttle` are positive,
otherwise bind events and, when `startOnMount`, call `reset`. -/
def useIdleTimer (now : Int) (cfg : IdleConfig) : Except String IdleState :=
  if cfg.debounce > 0 && cfg.throttle > 0 then
    Except.error "onAction can either be throttled or debounced (not both)"
  else
    let s := bindEvents (initialState now)
    Except.ok (if cfg.startOnMount then reset now cfg s else s)

/-- Deliver a sequence of timestamped events to `_handleEvent`, in arrival
order. -/
def runEvents (cfg : IdleConfig) (evs : List (Int × JsEvent)) (s : IdleState) : IdleState :=
  evs.foldl (fun st p => handleEvent p.1 cfg p.2 st) s

/-! Concrete fixtures used by the counterexamples and witnesses. -/

/-- A configuration with `timeout = 1000` ms and all other options at their
defaults. -/
def cfg1000 : IdleConfig := { timeout := 1000 }

/-- Configuration `cfg1000` with `stopOnIdle` enabled. -/
def cfgStop : IdleConfig := { timeout := 1000, stopOnIdle := true }

/-- Configuration `cfg1000` with `startOnMount` disabled. -/
def cfgNoStart : IdleConfig := { timeout := 1000, startOnMount := false }

/-- A `click` activity event (no pointer coordinates). -/
def clickEvent : JsEvent := { type := "click" }

/-- A `mousemove` event at pointer position (5, 7). -/
def moveEvent57 : JsEvent := { type := "mousemove", pageX := some 5, pageY := some 7 }

/-- The state right after mounting `useIdleTimer` at time 0 with `cfg1000`
(`startOnMount` runs `reset`). -/
def mounted0 : IdleState := reset 0 cfg1000 (bindEvents (initialState 0))

/-- The state right after mounting at time 0 with `startOnMount = false`:
events are bound but `reset` has not run. -/
def dormant0 : IdleState := bindEvents (initialState 0)

/-- State `mounted0` after the first `mousemove` at (5, 7), delivered at t = 400:
the pointer refs now store (5, 7). -/
def afterFirstMove : IdleState := handleEvent 400 cfg1000 moveEvent57 mounted0

/-- State `mounted0` after its armed deadline fires at t = 1000: the machine is
idle. -/
def idleAt1000 : IdleState := fireDeadline 1000 cfg1000 mounted0

/-- State `idleAt1000` paused at t = 1500: the frozen remainder is `0`. -/
def pausedIdle : IdleState := pause 1500 cfg1000 idleAt1000

/-- State `pausedIdle` resumed at t = 1600 while still idle: events rebound, the
frozen remainder kept. -/
def resumedIdle : IdleState := resume 1600 cfg1000 pausedIdle

/-- State `mounted0` paused at t = 500: the frozen remainder is `500`. -/
def pausedAt500 : IdleState := pause 500 cfg1000 mounted0

/-- An idle state carrying a nonzero frozen remainder (idle reached at
t = 1000, remainder 250 frozen). -/
def sIdleRem : IdleState := { idleAt1000 with remaining := some 250 }

/-- An idle state of the `stopOnIdle` machine: deadline fired at t = 1000
after a mount at 0. -/
def sIdleStop : IdleState :=
  fireDeadline 1000 cfgStop (reset 0 cfgStop (initialState 0))

end IdleTimer

open IdleTimer

/-! ## Claims -/

/-- C1, counterexample: in the reachable state `mounted0` (mount at t = 0,
`timeout = 1000`), `getRemainingTime` at t = 500 is 500; after `pause()`
followed immediately by `resume()` at the same instant t = 500 (zero
scheduling slack), `getRemainingTime` reports 1000, not 500 — `resume`
stamps `lastActive := now`, so the getter jumps back to the full timeout. -/
theorem c1_counterexample :
    useIdleTimer 0 cfg1000 = Except.ok mounted0 ∧
    getRemainingTime 500 cfg1000 mounted0 = 500 ∧
    getRemainingTime 500 cfg1000
      (resume 500 cfg1000 (pause 500 cfg1000 mounted0)) = 1000 := by
  refine ⟨rfl, rfl, rfl⟩

/-- C1, amended: from any running state (not paused, not idle), `pause()`
then `resume()` arms the new deadline for exactly the pre-pause
`getRemainingTime()` — the countdown itself is preserved — but the
`getRemainingTime()` reported immediately after `resume()` is the full
`timeout`, because `resume` resets `lastActive` to now. -/
theorem c1_pause_resume_preserves_deadline_not_getter
    (now : Int) (cfg : IdleConfig) (s : IdleState)
    (hrun : s.remaining = none) (hact : s.idle = false) (ht : 0 ≤ cfg.timeout) :
    (resume now cfg (pause now cfg s)).tId =
      some (now + getRemainingTime now cfg s) ∧
    getRemainingTime now cfg (resume now cfg (pause now cfg s)) = cfg.timeout := by
  rcases s with ⟨eb, idl, od, rem, px, py, tid, la, li, it⟩
  simp only at hrun hact
  subst hrun; subst hact
  cases eb <;>
    simp only [pause, resume, unbindEvents, bindEvents, getRemainingTime, jsNum,
      Bool.false_or, Bool.true_or, if_true, if_false, bne_self_eq_false,
      Bool.false_eq_true, beq_self_eq_true] <;>
    split_ifs <;> simp_all <;> omega

/-- C1 witness: the amended theorem applied at the concrete running state
`mounted0` at t = 500. -/
theorem c1_witness :
    (resume 500 cfg1000 (pause 500 cfg1000 mounted0)).tId =
      some (500 + getRemainingTime 500 cfg1000 mounted0) ∧
    getRemainingTime 500 cfg1000
      (resume 500 cfg1000 (pause 500 cfg1000 mounted0)) = cfg1000.timeout :=
  c1_pause_resume_preserves_deadline_not_getter 500 cfg1000 mounted0
    rfl rfl (by decide)

/-- C2: the code evaluated at the failing input of the claim.  After a mousemove
at (5, 7) at t = 400, the pointer refs hold exactly (5, 7); a second
mousemove carrying the *same* coordinates (5, 7) at t = 500 is NOT
discarded: line 96 compares `e.pageX` with the ref object `pageX` instead of
`pageX.current`, so the equal-coordinates guard never fires, `lastActive`
advances from 400 to 500 and the deadline is re-armed from 1400 to 1500. -/
theorem c2_unchanged_coords_event_not_discarded :
    afterFirstMove.pageX = moveEvent57.pageX ∧
    afterFirstMove.pageY = moveEvent57.pageY ∧
    afterFirstMove.lastActive = some 400 ∧
    afterFirstMove.tId = some 1400 ∧
    (handleEvent 500 cfg1000 moveEvent57 afterFirstMove).lastActive = some 500 ∧
    (handleEvent 500 cfg1000 moveEvent57 afterFirstMove).tId = some 1500 := by
  refine ⟨rfl, rfl, rfl, rfl, rfl, rfl⟩

/-- C3: from every state, `reset()` leaves the machine Active
(`isIdle() = false`) with `lastActiveAt = sessionStart = now`,
`pendingRemaining` cleared to null, events bound, a fresh deadline armed for
`timeout`, and `getRemainingTime()` equal to `timeout` immediately after. -/
theorem c3_reset_restores_active (now : Int) (cfg : IdleConfig) (s : IdleState)
    (ht : 0 ≤ cfg.timeout) :
    isIdle (reset now cfg s) = false ∧
    (reset now cfg s).lastActive = some now ∧
    (reset now cfg s).oldDate = now ∧
    (reset now cfg s).remaining = none ∧
    (reset now cfg s).tId = some (now + cfg.timeout) ∧
    (reset now cfg s).eventsBound = true ∧
    getRemainingTime now cfg (reset now cfg s) = cfg.timeout := by
  rcases s with ⟨eb, idl, od, rem, px, py, tid, la, li, it⟩
  cases eb
  all_goals refine ⟨rfl, rfl, rfl, rfl, rfl, rfl, ?_⟩
  all_goals simp only [getRemainingTime, reset, bindEvents, jsNum]
  all_goals split_ifs <;> omega

/-- C3 witness: `reset` at t = 700 on the paused fixture `pausedAt500`. -/
theorem c3_witness :
    isIdle (reset 700 cfg1000 pausedAt500) = false ∧
    (reset 700 cfg1000 pausedAt500).lastActive = some 700 ∧
    (reset 700 cfg1000 pausedAt500).oldDate = 700 ∧
    (reset 700 cfg1000 pausedAt500).remaining = none ∧
    (reset 700 cfg1000 pausedAt500).tId = some (700 + cfg1000.timeout) ∧
    (reset 700 cfg1000 pausedAt500).eventsBound = true ∧
    getRemainingTime 700 cfg1000 (reset 700 cfg1000 pausedAt500) = cfg1000.timeout :=
  c3_reset_restores_active 700 cfg1000 pausedAt500 (by decide)

/-- With `stopOnIdle = true` and the machine idle, `_handleEvent` never
flips the idle flag back: the transition guard on line 119-122 requires
either `idle && !stopOnIdle` or `!idle`, both false here. -/
theorem handleEvent_stopOnIdle_preserves_idle (now : Int) (cfg : IdleConfig)
    (e : JsEvent) (s : IdleState) (hstop : cfg.stopOnIdle = true)
    (hidle : s.idle = true) :
    (handleEvent now cfg e s).idle = true := by
  rcases s with ⟨eb, idl, od, rem, px, py, tid, la, li, it⟩
  simp only at hidle
  subst hidle
  simp only [handleEvent, hstop]
  split_ifs <;> simp_all

/-- C4: with `stopOnIdle = true`, once the machine is Idle, no sequence of
delivered activity events ever makes `isIdle()` false again: the machine is
frozen until `reset()` is called explicitly. -/
theorem c4_stop_on_idle_never_reactivates (cfg : IdleConfig) (s : IdleState)
    (hstop : cfg.stopOnIdle = true) (hidle : isIdle s = true)
    (evs : List (Int × JsEvent)) :
    isIdle (runEvents cfg evs s) = true := by
  induction evs generalizing s with
  | nil => exact hidle
  | cons p rest ih =>
      simp only [runEvents, List.foldl_cons] at ih ⊢
      exact ih _ (handleEvent_stopOnIdle_preserves_idle p.1 cfg p.2 s hstop hidle)

/-- C4 witness: the idle `stopOnIdle` fixture stays idle across a concrete
two-event sequence. -/
theorem c4_witness :
    isIdle (runEvents cfgStop [(1500, clickEvent), (1700, moveEvent57)] sIdleStop) = true :=
  c4_stop_on_idle_never_reactivates cfgStop sIdleStop rfl rfl
    [(1500, clickEvent), (1700, moveEvent57)]

/-- C5: mounting raises the configuration error exactly when both
`debounce > 0` and `throttle > 0`; every other combination mounts without
error. -/
theorem c5_config_error_iff_debounce_and_throttle (now : Int) (cfg : IdleConfig) :
    (∃ msg, useIdleTimer now cfg = Except.error msg) ↔
      (0 < cfg.debounce ∧ 0 < cfg.throttle) := by
  unfold useIdleTimer
  split
  · rename_i h
    simp only [Bool.and_eq_true, decide_eq_true_eq] at h
    exact iff_of_true ⟨_, rfl⟩ h
  · rename_i h
    simp only [Bool.and_eq_true, decide_eq_true_eq] at h
    constructor
    · rintro ⟨msg, hmsg⟩
      simp at hmsg
    · intro hc
      exact absurd hc h

/-- C6: every Active→Idle transition back-dates `lastIdle` to
`now - timeout` (first conjunct, for any toggle out of the active state);
and in the concrete scenario — `timeout = 1000`, mount at time `c`, no
events — the deadline armed at mount fires at `c + 1000` and the `onIdle`
callback observes `isIdle() = true` and `getLastIdleTime() = c`, the
creation time. -/
theorem c6_idle_transition_backdates_lastIdle :
    (∀ (now : Int) (cfg : IdleConfig) (s : IdleState), s.idle = false →
      (toggleIdleState now cfg s).idle = true ∧
      (toggleIdleState now cfg s).lastIdle = some (now - cfg.timeout)) ∧
    (∀ c : Int,
      useIdleTimer c cfg1000 =
        Except.ok (reset c cfg1000 (bindEvents (initialState c))) ∧
      (reset c cfg1000 (bindEvents (initialState c))).tId = some (c + 1000) ∧
      isIdle (fireDeadline (c + 1000) cfg1000
        (reset c cfg1000 (bindEvents (initialState c)))) = true ∧
      getLastIdleTime (fireDeadline (c + 1000) cfg1000
        (reset c cfg1000 (bindEvents (initialState c)))) = some c) := by
  constructor
  · intro now cfg s hidle
    rcases s with ⟨eb, idl, od, rem, px, py, tid, la, li, it⟩
    simp only at hidle
    subst hidle
    rcases h : cfg.stopOnIdle <;> cases eb <;>
      simp [toggleIdleState, unbindEvents, h]
  · intro c
    refine ⟨rfl, rfl, rfl, ?_⟩
    have h : getLastIdleTime (fireDeadline (c + 1000) cfg1000
        (reset c cfg1000 (bindEvents (initialState c)))) = some (c + 1000 - 1000) := rfl
    rw [h]
    simp only [Option.some.injEq]
    omega

/-- C6 witness: the first conjunct applied at the active fixture `mounted0`
toggled at t = 1000. -/
theorem c6_witness :
    (toggleIdleState 1000 cfg1000 mounted0).idle = true ∧
    (toggleIdleState 1000 cfg1000 mounted0).lastIdle = some (1000 - cfg1000.timeout) :=
  c6_idle_transition_backdates_lastIdle.1 1000 cfg1000 mounted0 rfl

/-- C7: `getRemainingTime()` is never negative; when `pendingRemaining`
(`remaining`) is non-null it returns that frozen value floored at 0, and
when it is null it returns `timeout - (now - lastActive)` floored at 0.  (In
the embedding the getter is a pure function of the state, so it has no side
effects by construction.) -/
theorem c7_getRemainingTime_branches (now : Int) (cfg : IdleConfig) (s : IdleState) :
    0 ≤ getRemainingTime now cfg s ∧
    (∀ r, s.remaining = some r → getRemainingTime now cfg s = max r 0) ∧
    (s.remaining = none →
      getRemainingTime now cfg s = max (cfg.timeout - (now - jsNum s.lastActive)) 0) := by
  rcases hrem : s.remaining with _ | r <;>
    simp only [getRemainingTime, hrem]
  · refine ⟨by split_ifs <;> omega, ?_, ?_⟩
    · intro r h
      cases h
    · intro _
      simp only [max_def]
      split_ifs <;> omega
  · refine ⟨by split_ifs <;> omega, ?_, ?_⟩
    · intro r' h
      injection h with h
      subst h
      simp only [max_def]
      split_ifs <;> omega
    · intro h
      cases h

/-- C7 witness: the branch equations evaluated at the paused fixture
`pausedAt500` (frozen remainder 500) and at the unpaused fixture
`dormant0`. -/
theorem c7_witness :
    0 ≤ getRemainingTime 600 cfg1000 pausedAt500 ∧
    getRemainingTime 600 cfg1000 pausedAt500 = max 500 0 ∧
    getRemainingTime 600 cfg1000 dormant0 =
      max (cfg1000.timeout - (600 - jsNum dormant0.lastActive)) 0 :=
  ⟨(c7_getRemainingTime_branches 600 cfg1000 pausedAt500).1,
   (c7_getRemainingTime_branches 600 cfg1000 pausedAt500).2.1 500 rfl,
   (c7_getRemainingTime_branches 600 cfg1000 dormant0).2.2 rfl⟩

/-- C8: `pause()` and `resume()` are idempotent as state transformers, even
when the second call happens later: a second `pause` hits the non-null
`remaining` guard, and a second `resume` either hits the null `remaining`
guard (active case) or repeats the bind-only path unchanged (idle case). -/
theorem c8_pause_resume_idempotent (n1 n2 : Int) (cfg : IdleConfig) (s : IdleState) :
    pause n2 cfg (pause n1 cfg s) = pause n1 cfg s ∧
    resume n2 cfg (resume n1 cfg s) = resume n1 cfg s := by
  rcases s with ⟨eb, idl, od, rem, px, py, tid, la, li, it⟩
  constructor
  · rcases rem with _ | r
    · cases eb <;> simp [pause, unbindEvents, getRemainingTime, jsNum]
    · simp [pause]
  · rcases rem with _ | r
    · simp [resume]
    · cases idl <;> cases eb <;> simp [resume, bindEvents, jsNum]

/-- C9, counterexample: with `startOnMount = false`, `isIdle()` is true and
`getLastIdleTime()` null right after mount — but the idle flag does NOT
persist until `reset()`: the mount effect binds events regardless of
`startOnMount`, and a single `click` delivered at t = 300 toggles the
machine Active with no `reset()` call. -/
theorem c9_counterexample :
    useIdleTimer 0 cfgNoStart = Except.ok dormant0 ∧
    isIdle dormant0 = true ∧
    getLastIdleTime dormant0 = none ∧
    isIdle (handleEvent 300 cfgNoStart clickEvent dormant0) = false := by
  refine ⟨rfl, rfl, rfl, rfl⟩

/-- C9, amended: with `startOnMount = false` (and the debounce/throttle
exclusion satisfied), the mount yields the bound dormant state, in which
`isIdle()` is true even though no idle transition has occurred and
`getLastIdleTime()` is still null; the flag then stays true only until
`reset()` runs or an activity event is delivered. -/
theorem c9_dormant_mount_starts_idle (now : Int) (cfg : IdleConfig)
    (hmount : cfg.startOnMount = false)
    (hcfg : ¬(0 < cfg.debounce ∧ 0 < cfg.throttle)) :
    useIdleTimer now cfg = Except.ok (bindEvents (initialState now)) ∧
    isIdle (bindEvents (initialState now)) = true ∧
    getLastIdleTime (bindEvents (initialState now)) = none := by
  refine ⟨?_, rfl, rfl⟩
  have h1 : (cfg.debounce > 0 && cfg.throttle > 0) = false := by
    rcases Decidable.em (0 < cfg.debounce) with hd | hd
    · have ht2 : ¬ 0 < cfg.throttle := fun ht2 => hcfg ⟨hd, ht2⟩
      simp [ht2]
    · simp [hd]
  unfold useIdleTimer
  rw [h1, hmount]
  simp

/-- C9 witness: the amended theorem at t = 0 with `cfgNoStart`. -/
theorem c9_witness :
    useIdleTimer 0 cfgNoStart = Except.ok (bindEvents (initialState 0)) ∧
    isIdle (bindEvents (initialState 0)) = true ∧
    getLastIdleTime (bindEvents (initialState 0)) = none :=
  c9_dormant_mount_starts_idle 0 cfgNoStart rfl (by decide)

/-- C10, counterexample: in the reachable trace mount(0) → deadline fires at
1000 → `pause()` at 1500 (freezing `remaining = 0`) → `resume()` at 1600
while idle, `pendingRemaining` is indeed still non-null (`some 0`), events
are rebound and no deadline is armed — but a `click` delivered at t = 1700
does NOT return before state evaluation: the line 91 truthiness guard passes
`remaining = 0` through, the machine toggles Active and arms a deadline. -/
theorem c10_counterexample :
    resumedIdle.remaining = some 0 ∧
    isIdle resumedIdle = true ∧
    resumedIdle.eventsBound = true ∧
    resumedIdle.tId = none ∧
    isIdle (handleEvent 1700 cfg1000 clickEvent resumedIdle) = false ∧
    (handleEvent 1700 cfg1000 clickEvent resumedIdle).tId = some 2700 := by
  refine ⟨rfl, rfl, rfl, rfl, rfl, rfl⟩

/-- C10, amended: `resume()` while paused and Idle only rebinds the
listeners — `pendingRemaining` stays frozen and non-null and no deadline is
armed — and a subsequently delivered event returns early (leaving the state
unchanged) exactly when the frozen remainder is nonzero; with a zero
remainder (the usual frozen value when pausing while idle) the JS truthiness
guard on line 91 lets events reach timer and state evaluation. -/
theorem c10_resume_while_paused_idle (now : Int) (cfg : IdleConfig)
    (s : IdleState) (r : Int)
    (hidle : s.idle = true) (hrem : s.remaining = some r) :
    resume now cfg s = bindEvents s ∧
    (bindEvents s).remaining = some r ∧
    (bindEvents s).tId = s.tId ∧
    (r ≠ 0 → ∀ (n : Int) (e : JsEvent),
      handleEvent n cfg e (bindEvents s) = bindEvents s) := by
  rcases s with ⟨eb, idl, od, rem, px, py, tid, la, li, it⟩
  simp only at hidle hrem
  subst hidle
  subst hrem
  refine ⟨?_, ?_, ?_, ?_⟩
  · cases eb <;> simp [resume, bindEvents]
  · cases eb <;> simp [bindEvents]
  · cases eb <;> simp [bindEvents]
  · intro hr n e
    cases eb <;> simp [handleEvent, bindEvents, jsTruthy, bne, hr]

/-- C10 witness: the amended theorem at the idle fixture `sIdleRem` with
frozen remainder 250. -/
theorem c10_witness :
    resume 1600 cfg1000 sIdleRem = bindEvents sIdleRem ∧
    (bindEvents sIdleRem).remaining = some 250 ∧
    (bindEvents sIdleRem).tId = sIdleRem.tId ∧
    handleEvent 1700 cfg1000 clickEvent (bindEvents sIdleRem) = bindEvents sIdleRem := by
  have h := c10_resume_while_paused_idle 1600 cfg1000 sIdleRem 250 rfl rfl
  exact ⟨h.1, h.2.1, h.2.2.1, h.2.2.2 (by decide) 1700 clickEvent⟩
